import Mathlib

/-!
Shallow embedding of the chat buffering / flush / delete subsystem of
`src/socketHandlers/chatHandlers.js` (1:1 and tribe chat): the per-room
Redis message buffer, the bulk flush into the durable Message store, the
send path (`createMessage`, `tribeCreateMessage`) and the delete
reconciler (`deleteMessage`, `deleteTribeMessage`), together with the
denormalized ChatLobby summary documents.

Conventions of the embedding:
* Timestamps are `Nat` milliseconds (`Date.now()`); `moment().diff(-, "minutes")`
  is floor division by 60000.
* MongoDB ObjectId generation is modelled by a deterministic supply
  `freshId` driven by a counter in the state; `insertMany` assigns a
  fresh id to every document that carries none, exactly as MongoDB does.
* JSON serialisation into Redis is the identity on buffer entries
  (`JSON.parse ∘ JSON.stringify` roundtrips the records involved).
* Each fallible external call that the source wraps in `try/catch` is
  driven by a Boolean in an `Env` record (`true` = the call succeeds);
  a failed call leaves the state unchanged, as the handlers catch and
  log the error.
-/

namespace Chat

abbrev Room := String
abbrev UserId := String
abbrev MsgId := String

/-- A Redis buffer entry, as built in the `createMessage` handler:
`{_id, senderId, senderName, text, timestamp}`. -/
structure BufEntry where
  id : MsgId
  senderId : UserId
  senderName : String
  text : String
  timestamp : Nat
deriving Repr, DecidableEq

/-- A stored row of the durable `Message` / `TribeMessage` collection. -/
structure MsgRow where
  id : MsgId
  chatLobbyId : Room
  sender : UserId
  message : String
  type : String
  seen : Bool
  sentAt : Nat
  fileUrl : Option String
  senderUsername : Option String
deriving Repr, DecidableEq

/-- A document handed to `insertMany` / `create`: the `_id` field is
optional, and MongoDB generates one when it is absent. -/
structure InsertDoc where
  id : Option MsgId
  chatLobbyId : Room
  sender : UserId
  message : String
  type : String
  seen : Bool
  sentAt : Nat
deriving Repr, DecidableEq

/-- An embedded message of the `ChatLobby.messages` array, as pushed by
the send path: `{_id, sender, message, sentAt}`. -/
structure LobbyMsg where
  id : MsgId
  sender : UserId
  message : String
  sentAt : Nat
deriving Repr, DecidableEq

/-- A `ChatLobby` / `TribeChatLobby` summary document. -/
structure ChatLobby where
  chatLobbyId : Room
  participants : List UserId
  messages : List LobbyMsg
  deletefor : List UserId
  lastmsg : String
  lastmsgid : Option MsgId
  lastUpdated : Nat
deriving Repr, DecidableEq

/-- A user tracked by the in-memory `users` registry. -/
structure ConnUser where
  userId : UserId
  name : String
  room : Room
deriving Repr, DecidableEq

/-- The whole mutable state the chat handlers touch. -/
structure ChatState where
  chatBuf : List (Room × List BufEntry)
  tribeBuf : List (Room × List BufEntry)
  messages : List MsgRow
  tribeMessages : List MsgRow
  chatLobbies : List ChatLobby
  tribeLobbies : List ChatLobby
  gcsObjects : List String
  nextId : Nat
  now : Nat
deriving Repr, DecidableEq

/-- Success flags for the fallible storage calls the handlers catch. -/
structure Env where
  insertManyOk : Bool
  flushLobbyOk : Bool
  sendLobbyOk : Bool
  gcsOk : Bool
deriving Repr, DecidableEq

/-- The environment in which every storage call succeeds. -/
def envOk : Env := ⟨true, true, true, true⟩

/-- Observable actions, in program order: Redis pushes, socket emits and
durable-store writes. -/
inductive Ev where
  | redisPush (room : Room) (id : MsgId)
  | newMessage (room : Room) (id : MsgId)
  | newTribeMessage (room : Room) (id : MsgId)
  | lobbyUpdated (room : Room)
  | durableLobbyWrite (room : Room)
  | durableInsertMany (room : Room) (n : Nat)
  | durableTribeInsert (room : Room) (id : MsgId)
  | notify (user : UserId)
  | messageDeleted (room : Room) (id : MsgId)
  | tribeMessageDeleted (room : Room) (id : MsgId)
deriving Repr, DecidableEq

/-- Events that write to durable storage (MongoDB). -/
def Ev.isDurable : Ev → Bool
  | .durableLobbyWrite _ => true
  | .durableInsertMany _ _ => true
  | .durableTribeInsert _ _ => true
  | .notify _ => true
  | _ => false

/-- Events that are socket broadcasts. -/
def Ev.isBroadcast : Ev → Bool
  | .newMessage _ _ => true
  | .newTribeMessage _ _ => true
  | .lobbyUpdated _ => true
  | .messageDeleted _ _ => true
  | .tribeMessageDeleted _ _ => true
  | _ => false

/-- `redis.lrange key 0 -1` on a room-keyed buffer map: a missing key
reads as the empty list. -/
def lookupList (m : List (Room × List BufEntry)) (room : Room) : List BufEntry :=
  match m.find? (fun kv => kv.1 == room) with
  | some kv => kv.2
  | none => []

/-- Replace (or create) the list stored under `room`. -/
def setList (m : List (Room × List BufEntry)) (room : Room) (v : List BufEntry) :
    List (Room × List BufEntry) :=
  match m with
  | [] => [(room, v)]
  | kv :: rest =>
    if kv.1 == room then (room, v) :: rest else kv :: setList rest room v

/-- `redis.del key`: drop the room's entry altogether. -/
def delKey (m : List (Room × List BufEntry)) (room : Room) :
    List (Room × List BufEntry) :=
  m.filter (fun kv => !(kv.1 == room))

/-- `Model.findOne {chatLobbyId}`: first document matching the room. -/
def findLobby (ls : List ChatLobby) (room : Room) : Option ChatLobby :=
  ls.find? (fun l => l.chatLobbyId == room)

/-- `Model.findOneAndUpdate {chatLobbyId} u`: update the first matching
document, leave the rest alone (no upsert). -/
def updateFirstLobby (ls : List ChatLobby) (room : Room) (f : ChatLobby → ChatLobby) :
    List ChatLobby :=
  match ls with
  | [] => []
  | l :: rest =>
    if l.chatLobbyId == room then f l :: rest else l :: updateFirstLobby rest room f

/-- `Model.findById`: the row with the given `_id`, if any. -/
def findRow (rows : List MsgRow) (i : MsgId) : Option MsgRow :=
  rows.find? (fun r => r.id == i)

/-- `Model.findByIdAndDelete`: remove the (first) row with the given id. -/
def eraseRow : List MsgRow → MsgId → List MsgRow
  | [], _ => []
  | r :: rs, i => if r.id == i then rs else r :: eraseRow rs i

/-- The deterministic ObjectId supply of the embedding. -/
def freshId (n : Nat) : MsgId := "oid_" ++ toString n

/-- Modelled from the spec: `isRealString` is imported from
`src/utils/validation`, which is not part of the provided sources; §4.3
of the spec requires the body to be a non-empty string after trimming. -/
def isRealString (s : String) : Bool := s.data.any (fun c => !c.isWhitespace)

/-- Modelled from the spec boundary: `mongoose.Types.ObjectId.isValid` is
external library code; every id produced by the embedding's supply is a
well-formed id, and malformed client input is anything else. -/
def isValidObjectId (s : String) : Bool :=
  match s.data with
  | 'o' :: 'i' :: 'd' :: '_' :: _ => true
  | _ => false

/-- `moment().diff(moment(sentAt), "minutes")`: whole minutes elapsed. -/
def ageMinutes (now sentAt : Nat) : Nat := (now - sentAt) / 60000

/-- `BUFFER_BATCH_SIZE`. -/
def BUFFER_BATCH_SIZE : Nat := 10

/-- The document `flushChatBuffer` builds from one parsed buffer entry
(`chatHandlers.js` lines 45–54).  Note that the mapping carries no
`_id` field: the buffered id `p._id` is dropped. -/
def chatFlushDoc (room : Room) (p : BufEntry) : InsertDoc :=
  { id := none
    chatLobbyId := room
    sender := p.senderId
    message := p.text
    type := "text"
    seen := false
    sentAt := p.timestamp }

/-- `insertMany`: store each document, generating a fresh id (from the
counter) for every document that carries none. Returns the stored rows
and the advanced counter. -/
def assignIds : Nat → List InsertDoc → List MsgRow × Nat
  | n, [] => ([], n)
  | n, d :: ds =>
    match d.id with
    | some i =>
      let (rs, n') := assignIds n ds
      ({ id := i, chatLobbyId := d.chatLobbyId, sender := d.sender,
         message := d.message, type := d.type, seen := d.seen,
         sentAt := d.sentAt, fileUrl := none, senderUsername := none } :: rs, n')
    | none =>
      let (rs, n') := assignIds (n + 1) ds
      ({ id := freshId n, chatLobbyId := d.chatLobbyId, sender := d.sender,
         message := d.message, type := d.type, seen := d.seen,
         sentAt := d.sentAt, fileUrl := none, senderUsername := none } :: rs, n')

/-- `flushChatBuffer room` (`chatHandlers.js` lines 40–71): read the whole
buffer; if non-empty, map the entries to insert documents and bulk-insert
them; on success reset the lobby's `deletefor` and delete the Redis key;
on any caught storage error return with the buffer intact. -/
def flushChatBuffer (env : Env) (room : Room) (s : ChatState) : ChatState × List Ev :=
  let items := lookupList s.chatBuf room
  if items.isEmpty then (s, [])
  else
    let docs := items.map (chatFlushDoc room)
    if env.insertManyOk then
      let rn := assignIds s.nextId docs
      let s1 := { s with messages := s.messages ++ rn.1, nextId := rn.2 }
      if env.flushLobbyOk then
        let s2 := { s1 with
          chatLobbies := updateFirstLobby s1.chatLobbies room
            (fun l => { l with deletefor := [] }) }
        let s3 := { s2 with chatBuf := delKey s2.chatBuf room }
        (s3, [Ev.durableInsertMany room docs.length, Ev.durableLobbyWrite room])
      else
        (s1, [Ev.durableInsertMany room docs.length])
    else
      (s, [])

/-- `flushTribeBuffer room` (`chatHandlers.js` lines 76–105): the same
algorithm over the tribe buffer, `TribeMessage` and `TribeChatLobby`. -/
def flushTribeBuffer (env : Env) (room : Room) (s : ChatState) : ChatState × List Ev :=
  let items := lookupList s.tribeBuf room
  if items.isEmpty then (s, [])
  else
    let docs := items.map (chatFlushDoc room)
    if env.insertManyOk then
      let rn := assignIds s.nextId docs
      let s1 := { s with tribeMessages := s.tribeMessages ++ rn.1, nextId := rn.2 }
      if env.flushLobbyOk then
        let s2 := { s1 with
          tribeLobbies := updateFirstLobby s1.tribeLobbies room
            (fun l => { l with deletefor := [] }) }
        let s3 := { s2 with tribeBuf := delKey s2.tribeBuf room }
        (s3, [Ev.durableInsertMany room docs.length, Ev.durableLobbyWrite room])
      else
        (s1, [Ev.durableInsertMany room docs.length])
    else
      (s, [])

/-- The `$push`/`$set` update the send path applies to the room's
`ChatLobby` (`chatHandlers.js` lines 169–181). -/
def lobbyPushUpdate (msgId : MsgId) (senderId : UserId) (text : String) (ts : Nat)
    (l : ChatLobby) : ChatLobby :=
  { l with
    messages := l.messages ++ [{ id := msgId, sender := senderId, message := text, sentAt := ts }]
    deletefor := []
    lastmsg := text
    lastmsgid := some msgId
    lastUpdated := ts }

/-- Step 3 of the send path: `ChatLobby.findOneAndUpdate` followed by the
`lobbyUpdated` emit, the whole wrapped in `try/catch`.  When the call
throws (`env.sendLobbyOk = false`) nothing happens; when no lobby matches,
the update is a no-op and the subsequent dereference of the `null` result
throws inside the same `catch`, so no emit happens either. -/
def sendLobbyStep (env : Env) (room : Room) (msgId : MsgId) (senderId : UserId)
    (text : String) (ts : Nat) (s : ChatState) : ChatState × List Ev :=
  if env.sendLobbyOk then
    match findLobby s.chatLobbies room with
    | some _ =>
      let ls := updateFirstLobby s.chatLobbies room (lobbyPushUpdate msgId senderId text ts)
      ({ s with chatLobbies := ls },
       [Ev.durableLobbyWrite room, Ev.lobbyUpdated room])
    | none => (s, [])
  else (s, [])

/-- Step 4 of the send path: best-effort notifications to the other
participants of the lobby (state effect on the Notification collection is
out of scope of the claims; the events record who is notified). -/
def notifyEvents (ls : List ChatLobby) (room : Room) (senderId : UserId) : List Ev :=
  match findLobby ls room with
  | some l => (l.participants.filter (fun p => !(p == senderId))).map Ev.notify
  | none => []

/-- The buffer entry built by the send path for the freshly assigned id
and timestamp. -/
def sendEntry (u : ConnUser) (text : String) (s : ChatState) : BufEntry :=
  { id := freshId s.nextId, senderId := u.userId, senderName := u.name,
    text := text, timestamp := s.now }

/-- Steps 1–2 of the send path: generate the ObjectId and timestamp and
`rpush` the serialized entry onto the room's Redis buffer (consuming the
id supply). -/
def sendBufferAppend (u : ConnUser) (text : String) (s : ChatState) : ChatState :=
  { s with
    chatBuf := setList s.chatBuf u.room
      (lookupList s.chatBuf u.room ++ [sendEntry u text s])
    nextId := s.nextId + 1 }

/-- The `createMessage` handler (`chatHandlers.js` lines 124–223):
validate, assign the ObjectId and timestamp, push the serialized entry
onto the Redis buffer, broadcast `newMessage`, push the same record into
the `ChatLobby.messages` array together with the last-message fields
(best-effort), notify, and flush when the buffer has reached
`BUFFER_BATCH_SIZE`. -/
def createMessage (env : Env) (user : Option ConnUser) (text : String)
    (s : ChatState) : ChatState × List Ev :=
  match user with
  | none => (s, [])
  | some u =>
    if !(isRealString text) then (s, [])
    else
      let s1 := sendBufferAppend u text s
      let evA := [Ev.redisPush u.room (freshId s.nextId),
                  Ev.newMessage u.room (freshId s.nextId)]
      let r2 := sendLobbyStep env u.room (freshId s.nextId) u.userId text s.now s1
      let evC := notifyEvents r2.1.chatLobbies u.room u.userId
      if BUFFER_BATCH_SIZE ≤ (lookupList r2.1.chatBuf u.room).length then
        let r3 := flushChatBuffer env u.room r2.1
        (r3.1, evA ++ r2.2 ++ evC ++ r3.2)
      else
        (r2.1, evA ++ r2.2 ++ evC)

/-- The `tribeCreateMessage` handler (`chatHandlers.js` lines 226–280),
successful path: store the message directly in `TribeMessage` (no
buffering), broadcast it, `$set` the tribe lobby's `deletefor` to `[]`
(and nothing else of the lobby), and notify the other participants. -/
def tribeCreateMessage (user : Option ConnUser) (text : String)
    (s : ChatState) : ChatState × List Ev × Option MsgId :=
  match user with
  | none => (s, [], none)
  | some u =>
    if !(isRealString text) then (s, [], none)
    else
      let msgId := freshId s.nextId
      let row : MsgRow :=
        { id := msgId, chatLobbyId := u.room, sender := u.userId,
          message := text, type := "text", seen := false, sentAt := s.now,
          fileUrl := none, senderUsername := some u.name }
      let s1 := { s with
        tribeMessages := s.tribeMessages ++ [row]
        nextId := s.nextId + 1 }
      let evA := [Ev.durableTribeInsert u.room msgId, Ev.newTribeMessage u.room msgId]
      let ls2 := updateFirstLobby s1.tribeLobbies u.room (fun l => { l with deletefor := [] })
      let s2 := { s1 with tribeLobbies := ls2 }
      let evB := [Ev.durableLobbyWrite u.room]
      let evC := notifyEvents s2.tribeLobbies u.room u.userId
      (s2, evA ++ evB ++ evC, some msgId)

/-- Outcome reported through the delete handlers' callback. -/
inductive DelOutcome where
  | invalidIdFormat
  | deletedFromRedis
  | notFound
  | windowExpired
  | deletedFromMongo
  | errorCaught
deriving Repr, DecidableEq

/-- Payload of a `deleteMessage` request. -/
structure DelReq where
  userId : UserId
  messageId : MsgId
  chatLobbyId : Room
  deleteType : String
deriving Repr, DecidableEq

/-- The placeholder text the delete handler writes into the lobby. -/
def deletedText : String := "<i>*Message Deleted*</i>"

/-- The `$set` the delete handler applies to the lobby: placeholder text,
`lastmsgid := null`, fresh timestamp. -/
def lobbySetDeleted (now : Nat) (l : ChatLobby) : ChatLobby :=
  { l with lastmsg := deletedText, lastmsgid := none, lastUpdated := now }

/-- The buffer-scan predicate of the delete handler: id matches the
target and the sender is the requester. -/
def bufferMatch (req : DelReq) (e : BufEntry) : Bool :=
  e.id == req.messageId && e.senderId == req.userId

/-- The delete-window test of the handler: `deleteType === "forEveryone"`
and the message is at least 7 whole minutes old.  No requester role is
consulted. -/
def windowBlocked (req : DelReq) (now : Nat) (m : MsgRow) : Bool :=
  req.deleteType == "forEveryone" && decide (7 ≤ ageMinutes now m.sentAt)

/-- The `deleteMessage` handler (`chatHandlers.js` lines 330–469).
Order of effects is the source's: id-format gate; Redis buffer scan with
ownership check — on a hit, `lrem` the entry, `$set` the lobby to the
deleted placeholder, emit `lobbyUpdated` and `messageDeleted`, and return
without ever consulting MongoDB (buffered entries carry no `type` field,
so the file branch never fires there); otherwise `findById` in MongoDB —
absent means `NotFound` with no broadcast; for `forEveryone` enforce the
7-minute window (no role is consulted); best-effort GCS delete for file
messages on `forEveryone`; `$set` the lobby to the placeholder; delete
the row; emit `messageDeleted`.  Dereferencing a `null` lobby throws into
the outer `catch` (`errorCaught`) after the earlier effects persisted. -/
def deleteMessage (env : Env) (req : DelReq) (s : ChatState) :
    ChatState × List Ev × DelOutcome :=
  if !(isValidObjectId req.messageId) then (s, [], .invalidIdFormat)
  else
    let items := lookupList s.chatBuf req.chatLobbyId
    match items.find? (bufferMatch req) with
    | some e =>
      let s1 := { s with chatBuf := setList s.chatBuf req.chatLobbyId (items.erase e) }
      match findLobby s1.chatLobbies req.chatLobbyId with
      | none => (s1, [], .errorCaught)
      | some _ =>
        let s2 := { s1 with
          chatLobbies := updateFirstLobby s1.chatLobbies req.chatLobbyId
            (lobbySetDeleted s.now) }
        (s2, [Ev.lobbyUpdated req.chatLobbyId,
              Ev.messageDeleted req.chatLobbyId e.id], .deletedFromRedis)
    | none =>
      match findRow s.messages req.messageId with
      | none => (s, [], .notFound)
      | some m =>
        if windowBlocked req s.now m then
          (s, [], .windowExpired)
        else
          let gcs1 :=
            if m.type == "file" && m.fileUrl.isSome && req.deleteType == "forEveryone"
                && env.gcsOk then
              s.gcsObjects.erase (m.fileUrl.getD "")
            else s.gcsObjects
          let s1 := { s with gcsObjects := gcs1 }
          match findLobby s1.chatLobbies m.chatLobbyId with
          | none => (s1, [], .errorCaught)
          | some _ =>
            let s2 := { s1 with
              chatLobbies := updateFirstLobby s1.chatLobbies m.chatLobbyId
                (lobbySetDeleted s.now) }
            let s3 := { s2 with messages := eraseRow s2.messages req.messageId }
            (s3, [Ev.lobbyUpdated m.chatLobbyId,
                  Ev.messageDeleted m.chatLobbyId req.messageId], .deletedFromMongo)

/-- The `deleteTribeMessage` handler (`chatHandlers.js` lines 476–497):
`findById`; absent means `NotFound`; best-effort GCS delete for file
messages on `forEveryone`; delete the row; emit `tribeMessageDeleted`.
No buffer scan, no ownership check, no time window, no role check. -/
def deleteTribeMessage (env : Env) (messageId : MsgId) (deleteType : String)
    (s : ChatState) : ChatState × List Ev × DelOutcome :=
  match findRow s.tribeMessages messageId with
  | none => (s, [], .notFound)
  | some m =>
    let gcs1 :=
      if m.type == "file" && m.fileUrl.isSome && deleteType == "forEveryone"
          && env.gcsOk then
        s.gcsObjects.erase (m.fileUrl.getD "")
      else s.gcsObjects
    let s1 := { s with gcsObjects := gcs1 }
    let s2 := { s1 with tribeMessages := eraseRow s1.tribeMessages messageId }
    (s2, [Ev.tribeMessageDeleted m.chatLobbyId messageId], .deletedFromMongo)

/-- The `disconnect` handler's flush step (`chatHandlers.js` lines
283–291): flush the chat buffer, then the tribe buffer, of the user's
room, regardless of their lengths. -/
def disconnectFlush (env : Env) (room : Room) (s : ChatState) : ChatState × List Ev :=
  let r1 := flushChatBuffer env room s
  let r2 := flushTribeBuffer env room r1.1
  (r2.1, r1.2 ++ r2.2)

/-! Section: Helper lemmas about the store primitives -/

theorem lookupList_setList_self (m : List (Room × List BufEntry)) (room : Room)
    (v : List BufEntry) : lookupList (setList m room v) room = v := by
  induction m with
  | nil => simp [setList, lookupList, List.find?]
  | cons kv rest ih =>
    by_cases h : kv.1 = room
    · simp [setList, lookupList, List.find?, h]
    · have hb : (kv.1 == room) = false := beq_eq_false_iff_ne.mpr h
      simp only [setList, hb, Bool.false_eq_true, if_false]
      simpa [lookupList, List.find?, hb] using ih

theorem lookupList_delKey_self (m : List (Room × List BufEntry)) (room : Room) :
    lookupList (delKey m room) room = [] := by
  induction m with
  | nil => simp [delKey, lookupList, List.find?]
  | cons kv rest ih =>
    by_cases h : kv.1 = room
    · have hb : (kv.1 == room) = true := beq_iff_eq.mpr h
      simpa [delKey, hb] using ih
    · have hb : (kv.1 == room) = false := beq_eq_false_iff_ne.mpr h
      simpa [delKey, lookupList, List.find?, hb] using ih

theorem findLobby_updateFirstLobby_self (ls : List ChatLobby) (room : Room)
    (f : ChatLobby → ChatLobby) (hf : ∀ l, (f l).chatLobbyId = l.chatLobbyId) :
    findLobby (updateFirstLobby ls room f) room = (findLobby ls room).map f := by
  induction ls with
  | nil => simp [updateFirstLobby, findLobby, List.find?]
  | cons l rest ih =>
    by_cases h : l.chatLobbyId = room
    · have hb : (l.chatLobbyId == room) = true := beq_iff_eq.mpr h
      have hfb : ((f l).chatLobbyId == room) = true := by rw [hf]; exact hb
      simp [updateFirstLobby, findLobby, List.find?, hb, hfb]
    · have hb : (l.chatLobbyId == room) = false := beq_eq_false_iff_ne.mpr h
      simp only [updateFirstLobby, hb, Bool.false_eq_true, if_false]
      simp only [findLobby, List.find?, hb] at ih ⊢
      exact ih

theorem deleteMessage_buffer_path (env : Env) (req : DelReq) (s : ChatState)
    (e : BufEntry) (lby : ChatLobby)
    (hv : isValidObjectId req.messageId = true)
    (hb : (lookupList s.chatBuf req.chatLobbyId).find? (bufferMatch req) = some e)
    (hl : findLobby s.chatLobbies req.chatLobbyId = some lby) :
    deleteMessage env req s =
      ({ s with
          chatBuf := setList s.chatBuf req.chatLobbyId
            ((lookupList s.chatBuf req.chatLobbyId).erase e)
          chatLobbies := updateFirstLobby s.chatLobbies req.chatLobbyId
            (lobbySetDeleted s.now) },
       ([Ev.lobbyUpdated req.chatLobbyId, Ev.messageDeleted req.chatLobbyId e.id],
        DelOutcome.deletedFromRedis)) := by
  unfold deleteMessage
  rw [hv]
  simp only [Bool.not_true, Bool.false_eq_true, if_false, hb, hl]

theorem deleteMessage_notFound_path (env : Env) (req : DelReq) (s : ChatState)
    (hv : isValidObjectId req.messageId = true)
    (hb : (lookupList s.chatBuf req.chatLobbyId).find? (bufferMatch req) = none)
    (hm : findRow s.messages req.messageId = none) :
    deleteMessage env req s = (s, ([], DelOutcome.notFound)) := by
  unfold deleteMessage
  rw [hv]
  simp only [Bool.not_true, Bool.false_eq_true, if_false, hb, hm]

theorem deleteMessage_window_path (env : Env) (req : DelReq) (s : ChatState)
    (m : MsgRow)
    (hv : isValidObjectId req.messageId = true)
    (hb : (lookupList s.chatBuf req.chatLobbyId).find? (bufferMatch req) = none)
    (hm : findRow s.messages req.messageId = some m)
    (hw : windowBlocked req s.now m = true) :
    deleteMessage env req s = (s, ([], DelOutcome.windowExpired)) := by
  unfold deleteMessage
  rw [hv]
  simp only [Bool.not_true, Bool.false_eq_true, if_false, hb, hm, hw, if_true]

theorem deleteMessage_mongo_path (env : Env) (req : DelReq) (s : ChatState)
    (m : MsgRow) (lby : ChatLobby)
    (hv : isValidObjectId req.messageId = true)
    (hb : (lookupList s.chatBuf req.chatLobbyId).find? (bufferMatch req) = none)
    (hm : findRow s.messages req.messageId = some m)
    (hw : windowBlocked req s.now m = false)
    (hl : findLobby s.chatLobbies m.chatLobbyId = some lby) :
    deleteMessage env req s =
      ({ s with
          gcsObjects :=
            if m.type == "file" && m.fileUrl.isSome && req.deleteType == "forEveryone"
                && env.gcsOk then
              s.gcsObjects.erase (m.fileUrl.getD "")
            else s.gcsObjects
          chatLobbies := updateFirstLobby s.chatLobbies m.chatLobbyId
            (lobbySetDeleted s.now)
          messages := eraseRow s.messages req.messageId },
       ([Ev.lobbyUpdated m.chatLobbyId, Ev.messageDeleted m.chatLobbyId req.messageId],
        DelOutcome.deletedFromMongo)) := by
  unfold deleteMessage
  rw [hv]
  simp only [Bool.not_true, Bool.false_eq_true, if_false, hb, hm, hw, if_false, hl]

theorem deleteMessage_buffer_err (env : Env) (req : DelReq) (s : ChatState)
    (e : BufEntry)
    (hv : isValidObjectId req.messageId = true)
    (hb : (lookupList s.chatBuf req.chatLobbyId).find? (bufferMatch req) = some e)
    (hl : findLobby s.chatLobbies req.chatLobbyId = none) :
    deleteMessage env req s =
      ({ s with
          chatBuf := setList s.chatBuf req.chatLobbyId
            ((lookupList s.chatBuf req.chatLobbyId).erase e) },
       ([], DelOutcome.errorCaught)) := by
  unfold deleteMessage
  rw [hv]
  simp only [Bool.not_true, Bool.false_eq_true, if_false, hb, hl]

theorem deleteMessage_mongo_err (env : Env) (req : DelReq) (s : ChatState)
    (m : MsgRow)
    (hv : isValidObjectId req.messageId = true)
    (hb : (lookupList s.chatBuf req.chatLobbyId).find? (bufferMatch req) = none)
    (hm : findRow s.messages req.messageId = some m)
    (hw : windowBlocked req s.now m = false)
    (hl : findLobby s.chatLobbies m.chatLobbyId = none) :
    deleteMessage env req s =
      ({ s with
          gcsObjects :=
            if m.type == "file" && m.fileUrl.isSome && req.deleteType == "forEveryone"
                && env.gcsOk then
              s.gcsObjects.erase (m.fileUrl.getD "")
            else s.gcsObjects },
       ([], DelOutcome.errorCaught)) := by
  unfold deleteMessage
  rw [hv]
  simp only [Bool.not_true, Bool.false_eq_true, if_false, hb, hm, hw, hl]

/-- The rows (with freshly assigned ids) a chat flush bulk-inserts, and
the advanced id counter. -/
def flushInsert (s : ChatState) (room : Room) : List MsgRow × Nat :=
  assignIds s.nextId ((lookupList s.chatBuf room).map (chatFlushDoc room))

theorem flushChatBuffer_ok (env : Env) (room : Room) (s : ChatState)
    (h1 : env.insertManyOk = true) (h2 : env.flushLobbyOk = true)
    (hne : (lookupList s.chatBuf room).isEmpty = false) :
    flushChatBuffer env room s =
      ({ s with
          chatBuf := delKey s.chatBuf room
          messages := s.messages ++ (flushInsert s room).1
          chatLobbies := updateFirstLobby s.chatLobbies room (fun l => { l with deletefor := [] })
          nextId := (flushInsert s room).2 },
       [Ev.durableInsertMany room ((lookupList s.chatBuf room).map (chatFlushDoc room)).length,
        Ev.durableLobbyWrite room]) := by
  simp only [flushChatBuffer, flushInsert, hne, h1, h2, Bool.false_eq_true, if_false, if_true]
  try rfl

theorem flushChatBuffer_insertFail (env : Env) (room : Room) (s : ChatState)
    (h1 : env.insertManyOk = false) :
    flushChatBuffer env room s = (s, []) := by
  simp only [flushChatBuffer, h1, Bool.false_eq_true, if_false]
  split <;> rfl

theorem flushChatBuffer_lobbyFail (env : Env) (room : Room) (s : ChatState)
    (h1 : env.insertManyOk = true) (h2 : env.flushLobbyOk = false)
    (hne : (lookupList s.chatBuf room).isEmpty = false) :
    flushChatBuffer env room s =
      ({ s with
          messages := s.messages ++ (flushInsert s room).1
          nextId := (flushInsert s room).2 },
       [Ev.durableInsertMany room ((lookupList s.chatBuf room).map (chatFlushDoc room)).length]) := by
  simp only [flushChatBuffer, flushInsert, hne, h1, h2, Bool.false_eq_true, if_false, if_true]
  try rfl

theorem sendLobbyStep_chatBuf (env : Env) (room : Room) (msgId : MsgId)
    (senderId : UserId) (text : String) (ts : Nat) (s : ChatState) :
    (sendLobbyStep env room msgId senderId text ts s).1.chatBuf = s.chatBuf := by
  unfold sendLobbyStep
  split
  · split <;> rfl
  · rfl

theorem sendLobbyStep_ok (env : Env) (room : Room) (msgId : MsgId)
    (senderId : UserId) (text : String) (ts : Nat) (s : ChatState) (l : ChatLobby)
    (h1 : env.sendLobbyOk = true) (hl : findLobby s.chatLobbies room = some l) :
    sendLobbyStep env room msgId senderId text ts s
      = ({ s with
            chatLobbies := updateFirstLobby s.chatLobbies room
              (lobbyPushUpdate msgId senderId text ts) },
         [Ev.durableLobbyWrite room, Ev.lobbyUpdated room]) := by
  unfold sendLobbyStep
  rw [h1]
  simp only [if_true, hl]

theorem sendLobbyStep_events (env : Env) (room : Room) (msgId : MsgId)
    (senderId : UserId) (text : String) (ts : Nat) (s : ChatState) :
    (sendLobbyStep env room msgId senderId text ts s).2 = []
    ∨ (sendLobbyStep env room msgId senderId text ts s).2
        = [Ev.durableLobbyWrite room, Ev.lobbyUpdated room] := by
  unfold sendLobbyStep
  split
  · split
    · right; rfl
    · left; rfl
  · left; rfl

theorem notifyEvents_shape (ls : List ChatLobby) (room : Room) (senderId : UserId) :
    ∀ e ∈ notifyEvents ls room senderId, ∃ p, e = Ev.notify p := by
  intro e he
  unfold notifyEvents at he
  split at he
  · rcases List.mem_map.mp he with ⟨p, _, rfl⟩
    exact ⟨p, rfl⟩
  · simp at he

theorem flushChatBuffer_no_broadcast (env : Env) (room : Room) (s : ChatState) :
    ∀ e ∈ (flushChatBuffer env room s).2, e.isBroadcast = false := by
  intro e he
  cases h3 : (lookupList s.chatBuf room).isEmpty with
  | true =>
    simp only [flushChatBuffer, h3, if_true] at he
    simp at he
  | false =>
    cases h1 : env.insertManyOk with
    | false =>
      rw [flushChatBuffer_insertFail env room s h1] at he
      simp at he
    | true =>
      cases h2 : env.flushLobbyOk with
      | false =>
        rw [flushChatBuffer_lobbyFail env room s h1 h2 h3] at he
        simp only [List.mem_singleton] at he
        subst he
        rfl
      | true =>
        rw [flushChatBuffer_ok env room s h1 h2 h3] at he
        simp only [List.mem_cons, List.mem_singleton] at he
        rcases he with rfl | rfl | h
        · rfl
        · rfl
        · simp at h

theorem flushChatBuffer_chatLobbies (env : Env) (room : Room) (s : ChatState) :
    (flushChatBuffer env room s).1.chatLobbies = s.chatLobbies
    ∨ (flushChatBuffer env room s).1.chatLobbies
        = updateFirstLobby s.chatLobbies room (fun l => { l with deletefor := [] }) := by
  cases h3 : (lookupList s.chatBuf room).isEmpty with
  | true =>
    left
    simp only [flushChatBuffer, h3, if_true]
  | false =>
    cases h1 : env.insertManyOk with
    | false => left; rw [flushChatBuffer_insertFail env room s h1]
    | true =>
      cases h2 : env.flushLobbyOk with
      | false => left; rw [flushChatBuffer_lobbyFail env room s h1 h2 h3]
      | true => right; rw [flushChatBuffer_ok env room s h1 h2 h3]

/-! Section: Concrete fixtures -/

/-- A buffered entry whose assigned id is `freshId 0`. -/
def entA : BufEntry :=
  { id := freshId 0, senderId := "u1", senderName := "Alice", text := "hi", timestamp := 0 }

/-- A plain lobby for room `"r"` with two participants. -/
def lobA : ChatLobby :=
  { chatLobbyId := "r", participants := ["u1", "u2"], messages := [],
    deletefor := ["u2"], lastmsg := "", lastmsgid := none, lastUpdated := 0 }

/-- The empty state with a given buffer, durable rows, lobbies, counter and clock. -/
def mkState (buf : List (Room × List BufEntry)) (rows : List MsgRow)
    (lobbies : List ChatLobby) (nextId now : Nat) : ChatState :=
  { chatBuf := buf, tribeBuf := [], messages := rows, tribeMessages := [],
    chatLobbies := lobbies, tribeLobbies := [], gcsObjects := [],
    nextId := nextId, now := now }

/-- State for C1: one flushed-pending entry in room `"r"`. -/
def stC1 : ChatState := mkState [("r", [entA])] [] [lobA] 1 0

/-! Section: C1 -/

/-- C1: Id stability across the buffer-to-durable transition fails in
the code: `flushChatBuffer`'s document mapping drops the buffered `_id`
(`chatFlushDoc` carries `id := none`), so the bulk insert generates a
fresh id.  Concretely, flushing the room whose single buffered message
was broadcast with id `freshId 0` leaves durable storage holding exactly
one row, whose id is `freshId 1 ≠ freshId 0`, and a lookup of the
broadcast id in durable storage fails. -/
theorem c1_flush_regenerates_id :
    (∀ (room : Room) (p : BufEntry), (chatFlushDoc room p).id = none)
    ∧ (flushChatBuffer envOk "r" stC1).1.messages.map MsgRow.id = [freshId 1]
    ∧ findRow (flushChatBuffer envOk "r" stC1).1.messages (freshId 0) = none
    ∧ freshId 0 ≠ freshId 1 := by
  refine ⟨fun room p => rfl, by decide, by decide, by decide⟩

/-! Section: C2 -/

/-- Stated from the spec's words (§4.4 step 6), for comparison with the
code: after a durable delete the lobby summary should show the body of
the next-most-recent surviving message — durable storage ordered by time
descending — or be blank when none remains. -/
def specSummaryAfterDelete (survivors : List MsgRow) : String :=
  match survivors.foldl
      (fun acc r =>
        match acc with
        | none => some r
        | some b => if b.sentAt < r.sentAt then some r else some b)
      none with
  | some r => r.message
  | none => ""

/-- Durable rows for C2: an older message and the lobby's last message. -/
def rowEarlier : MsgRow :=
  { id := freshId 0, chatLobbyId := "r", sender := "u1", message := "earlier",
    type := "text", seen := false, sentAt := 0, fileUrl := none, senderUsername := none }

def rowHello : MsgRow :=
  { id := freshId 1, chatLobbyId := "r", sender := "u1", message := "hello",
    type := "text", seen := false, sentAt := 60000, fileUrl := none, senderUsername := none }

/-- The lobby whose last message is `rowHello`. -/
def lobC2 : ChatLobby :=
  { chatLobbyId := "r", participants := ["u1", "u2"], messages := [],
    deletefor := [], lastmsg := "hello", lastmsgid := some (freshId 1),
    lastUpdated := 60000 }

def stC2 : ChatState := mkState [] [rowEarlier, rowHello] [lobC2] 2 120000

/-- Delete the lobby's last message, `forSelf`, two minutes after send. -/
def reqC2 : DelReq :=
  { userId := "u1", messageId := freshId 1, chatLobbyId := "r", deleteType := "forSelf" }

/-- C2 counterexample: Deleting the durable message the lobby
currently references as last removes the row, but the summary is NOT set
to the next-most-recent surviving message: the surviving store still
holds `"earlier"` as its most recent body, while the code wrote the fixed
placeholder `deletedText` into the summary. -/
theorem c2_counterexample :
    (deleteMessage envOk reqC2 stC2).2.2 = DelOutcome.deletedFromMongo
    ∧ findRow (deleteMessage envOk reqC2 stC2).1.messages (freshId 1) = none
    ∧ specSummaryAfterDelete (deleteMessage envOk reqC2 stC2).1.messages = "earlier"
    ∧ (findLobby (deleteMessage envOk reqC2 stC2).1.chatLobbies "r").map ChatLobby.lastmsg
        = some deletedText
    ∧ deletedText ≠ "earlier" := by
  refine ⟨by decide, by decide, by decide, by decide, by decide⟩

/-- C2 amended: For every delete of a durable (already flushed)
message that passes the window check: the durable row is removed, and the
lobby summary is set — unconditionally, whether or not the deleted
message was the lobby's last — to the fixed placeholder text
`<i>*Message Deleted*</i>` with a `null` last-message id and the current
time; it is never left pointing at the deleted id (the id slot is
nulled), but it is not recomputed from the surviving messages. -/
theorem c2_amended (env : Env) (req : DelReq) (s : ChatState) (m : MsgRow)
    (lby : ChatLobby)
    (hv : isValidObjectId req.messageId = true)
    (hb : (lookupList s.chatBuf req.chatLobbyId).find? (bufferMatch req) = none)
    (hm : findRow s.messages req.messageId = some m)
    (hw : windowBlocked req s.now m = false)
    (hl : findLobby s.chatLobbies m.chatLobbyId = some lby) :
    (deleteMessage env req s).2.2 = DelOutcome.deletedFromMongo
    ∧ (deleteMessage env req s).1.messages = eraseRow s.messages req.messageId
    ∧ findLobby (deleteMessage env req s).1.chatLobbies m.chatLobbyId
        = some (lobbySetDeleted s.now lby)
    ∧ (lobbySetDeleted s.now lby).lastmsg = deletedText
    ∧ (lobbySetDeleted s.now lby).lastmsgid = none := by
  rw [deleteMessage_mongo_path env req s m lby hv hb hm hw hl]
  refine ⟨rfl, rfl, ?_, rfl, rfl⟩
  show findLobby (updateFirstLobby s.chatLobbies m.chatLobbyId (lobbySetDeleted s.now))
      m.chatLobbyId = some (lobbySetDeleted s.now lby)
  rw [findLobby_updateFirstLobby_self s.chatLobbies m.chatLobbyId
      (lobbySetDeleted s.now) (fun l => rfl), hl]
  rfl

/-- Witness for C2: the amended theorem applied at the concrete input of
the counterexample. -/
theorem c2_witness :
    (deleteMessage envOk reqC2 stC2).2.2 = DelOutcome.deletedFromMongo
    ∧ (deleteMessage envOk reqC2 stC2).1.messages = eraseRow stC2.messages reqC2.messageId
    ∧ findLobby (deleteMessage envOk reqC2 stC2).1.chatLobbies rowHello.chatLobbyId
        = some (lobbySetDeleted stC2.now lobC2)
    ∧ (lobbySetDeleted stC2.now lobC2).lastmsg = deletedText
    ∧ (lobbySetDeleted stC2.now lobC2).lastmsgid = none :=
  c2_amended envOk reqC2 stC2 rowHello lobC2 (by decide) (by decide) (by decide)
    (by decide) (by decide)

/-! Section: C3 -/

/-- The tribe lobby for room `"t"`, whose recorded last message is `"old"`. -/
def lobT : ChatLobby :=
  { chatLobbyId := "t", participants := ["u1", "u2"], messages := [],
    deletefor := ["u2"], lastmsg := "old", lastmsgid := some (freshId 9),
    lastUpdated := 5 }

def uT : ConnUser := { userId := "u1", name := "Alice", room := "t" }

def stC3 : ChatState :=
  { chatBuf := [], tribeBuf := [], messages := [], tribeMessages := [],
    chatLobbies := [], tribeLobbies := [lobT], gcsObjects := [],
    nextId := 0, now := 100 }

/-- C3 counterexample: A direct (non-buffered) tribe send clears
the per-user deleted-for-me markers but does NOT update the lobby
summary's last-message fields: after sending `"new message"` the tribe
lobby still shows `"old"` as its last message. -/
theorem c3_counterexample :
    (findLobby (tribeCreateMessage (some uT) "new message" stC3).1.tribeLobbies "t").map
        ChatLobby.lastmsg = some "old"
    ∧ (findLobby (tribeCreateMessage (some uT) "new message" stC3).1.tribeLobbies "t").map
        ChatLobby.deletefor = some []
    ∧ ("old" : String) ≠ "new message" := by
  refine ⟨by decide, by decide, by decide⟩

/-- C3 amended: A group (tribe) send through the direct,
non-buffered path clears the per-user deleted-for-me markers and this is
identical to the buffered path's post-flush lobby behaviour — but
neither path updates the lobby's last-message fields: both leave the
lobby exactly as it was except for `deletefor := []`. -/
theorem c3_amended (u : ConnUser) (text : String) (s : ChatState) (l : ChatLobby)
    (ht : isRealString text = true)
    (hl : findLobby s.tribeLobbies u.room = some l) :
    findLobby (tribeCreateMessage (some u) text s).1.tribeLobbies u.room
        = some { l with deletefor := [] }
    ∧ ∀ (env : Env) (s2 : ChatState) (l2 : ChatLobby),
        env.insertManyOk = true → env.flushLobbyOk = true →
        (lookupList s2.tribeBuf u.room).isEmpty = false →
        findLobby s2.tribeLobbies u.room = some l2 →
        findLobby (flushTribeBuffer env u.room s2).1.tribeLobbies u.room
          = some { l2 with deletefor := [] } := by
  constructor
  · simp only [tribeCreateMessage, ht, Bool.not_true, Bool.false_eq_true, if_false]
    rw [findLobby_updateFirstLobby_self s.tribeLobbies u.room
        (fun l => { l with deletefor := [] }) (fun l => rfl), hl]
    rfl
  · intro env s2 l2 h1 h2 hne hl2
    simp only [flushTribeBuffer, hne, h1, h2, Bool.false_eq_true, if_false, if_true]
    rw [findLobby_updateFirstLobby_self s2.tribeLobbies u.room
        (fun l => { l with deletefor := [] }) (fun l => rfl), hl2]
    rfl

/-- A state with a non-empty tribe buffer, for exercising the tribe flush. -/
def stC3b : ChatState := { stC3 with tribeBuf := [("t", [entA])] }

/-- Witness for C3: the amended theorem at concrete inputs — the direct
send and the flush both leave the lobby equal to the original with only
`deletefor` cleared. -/
theorem c3_witness :
    findLobby (tribeCreateMessage (some uT) "new message" stC3).1.tribeLobbies "t"
        = some { lobT with deletefor := [] }
    ∧ findLobby (flushTribeBuffer envOk "t" stC3b).1.tribeLobbies "t"
        = some { lobT with deletefor := [] } := by
  have h := c3_amended uT "new message" stC3 lobT (by decide) (by decide)
  exact ⟨h.1, h.2 envOk stC3b lobT rfl rfl (by decide) (by decide)⟩

/-! Section: C4 -/

/-- An 8-minute-old durable text message in room `"r"`. -/
def rowOld : MsgRow :=
  { id := freshId 0, chatLobbyId := "r", sender := "u1", message := "old text",
    type := "text", seen := false, sentAt := 0, fileUrl := none, senderUsername := none }

def stC4 : ChatState := mkState [] [rowOld] [lobA] 1 480000

/-- A `forEveryone` delete of that old message. The handler receives only
`userId`, `messageId`, `chatLobbyId` and `deleteType`; no role is part of
the request or consulted, so this is also the request a room admin sends. -/
def reqC4 : DelReq :=
  { userId := "adminUser", messageId := freshId 0, chatLobbyId := "r",
    deleteType := "forEveryone" }

/-- C4 counterexample: The claim's admin half fails: a `forEveryone`
delete of an 8-minute-old durable message is rejected with the
window-expired error and leaves the state untouched, and since the
handler consults no role at all, the identical request issued by a room
admin is rejected the same way — no requester succeeds past the window. -/
theorem c4_counterexample :
    deleteMessage envOk reqC4 stC4 = (stC4, ([], DelOutcome.windowExpired))
    ∧ 7 ≤ ageMinutes stC4.now rowOld.sentAt := by
  refine ⟨by decide, by decide⟩

/-- C4 amended: A `forEveryone` delete of a durable 1:1 message at
least 7 whole minutes old is rejected with `WindowExpired` and has no
side effect, for **every** requester — the code provides no admin
exemption (no role is ever consulted).  The tribe delete handler, by
contrast, applies no time window at all: any found tribe message is
deleted regardless of age or requester. -/
theorem c4_amended :
    (∀ (env : Env) (req : DelReq) (s : ChatState) (m : MsgRow),
      isValidObjectId req.messageId = true →
      (lookupList s.chatBuf req.chatLobbyId).find? (bufferMatch req) = none →
      findRow s.messages req.messageId = some m →
      req.deleteType = "forEveryone" →
      7 ≤ ageMinutes s.now m.sentAt →
      deleteMessage env req s = (s, ([], DelOutcome.windowExpired)))
    ∧ (∀ (env : Env) (mid : MsgId) (dt : String) (s : ChatState) (m : MsgRow),
      findRow s.tribeMessages mid = some m →
      (deleteTribeMessage env mid dt s).2.2 = DelOutcome.deletedFromMongo
      ∧ (deleteTribeMessage env mid dt s).1.tribeMessages = eraseRow s.tribeMessages mid) := by
  constructor
  · intro env req s m hv hb hm hdt hage
    have hw : windowBlocked req s.now m = true := by
      simp [windowBlocked, hdt, hage]
    exact deleteMessage_window_path env req s m hv hb hm hw
  · intro env mid dt s m hm
    unfold deleteTribeMessage
    rw [hm]
    exact ⟨rfl, rfl⟩

/-- Witness for C4: the amended theorem applied at the concrete
8-minute-old message and `"adminUser"` requester. -/
theorem c4_witness :
    deleteMessage envOk reqC4 stC4 = (stC4, ([], DelOutcome.windowExpired)) :=
  c4_amended.1 envOk reqC4 stC4 rowOld (by decide) (by decide) (by decide) rfl
    (by decide)

/-! Section: C5 -/

/-- An environment where the bulk insert succeeds but the subsequent
`deletefor` reset throws. -/
def envC5 : Env := { insertManyOk := true, flushLobbyOk := false, sendLobbyOk := true, gcsOk := true }

def stC5 : ChatState := mkState [("r", [entA])] [] [lobA] 1 0

/-- C5 counterexample: A flush whose bulk insert succeeds does NOT
always leave the buffer empty: if the follow-up `deletefor` reset throws
(the same `try` block), the handler returns through the `catch` without
deleting the Redis key, so the buffer still holds the entry. -/
theorem c5_counterexample :
    envC5.insertManyOk = true
    ∧ lookupList (flushChatBuffer envC5 "r" stC5).1.chatBuf "r" = [entA]
    ∧ [entA] ≠ ([] : List BufEntry) := by
  refine ⟨rfl, by decide, by decide⟩

/-- C5 amended: For every room with a non-empty buffer: a flush in
which the bulk insert **and** the lobby `deletefor` reset both succeed
empties the buffer and resets the lobby's deleted-for-me list; a flush
whose bulk insert fails leaves the entire state unchanged (buffer intact
for retry); a flush whose bulk insert succeeds but whose `deletefor`
reset fails leaves the buffer and the lobbies unchanged (the inserted
rows remain).  In every case the flush returns normally — the failure is
only logged, never fatal. -/
theorem c5_amended (env : Env) (room : Room) (s : ChatState)
    (hne : (lookupList s.chatBuf room).isEmpty = false) :
    (env.insertManyOk = true → env.flushLobbyOk = true →
      lookupList (flushChatBuffer env room s).1.chatBuf room = []
      ∧ ∀ l, findLobby s.chatLobbies room = some l →
          findLobby (flushChatBuffer env room s).1.chatLobbies room
            = some { l with deletefor := [] })
    ∧ (env.insertManyOk = false → flushChatBuffer env room s = (s, []))
    ∧ (env.insertManyOk = true → env.flushLobbyOk = false →
      (flushChatBuffer env room s).1.chatBuf = s.chatBuf
      ∧ (flushChatBuffer env room s).1.chatLobbies = s.chatLobbies) := by
  refine ⟨?_, ?_, ?_⟩
  · intro h1 h2
    rw [flushChatBuffer_ok env room s h1 h2 hne]
    refine ⟨lookupList_delKey_self s.chatBuf room, ?_⟩
    intro l hl
    show findLobby (updateFirstLobby s.chatLobbies room
        (fun l => { l with deletefor := [] })) room = _
    rw [findLobby_updateFirstLobby_self s.chatLobbies room
        (fun l => { l with deletefor := [] }) (fun l => rfl), hl]
    rfl
  · intro h1
    exact flushChatBuffer_insertFail env room s h1
  · intro h1 h2
    rw [flushChatBuffer_lobbyFail env room s h1 h2 hne]
    exact ⟨rfl, rfl⟩

/-- Witness for C5: all three branches of the amended theorem at concrete
inputs — success clears the buffer and resets `deletefor`, insert failure
returns the state unchanged, lobby-reset failure keeps the buffer. -/
theorem c5_witness :
    lookupList (flushChatBuffer envOk "r" stC5).1.chatBuf "r" = []
    ∧ findLobby (flushChatBuffer envOk "r" stC5).1.chatLobbies "r"
        = some { lobA with deletefor := [] }
    ∧ flushChatBuffer ⟨false, true, true, true⟩ "r" stC5 = (stC5, [])
    ∧ (flushChatBuffer envC5 "r" stC5).1.chatBuf = stC5.chatBuf := by
  have h := c5_amended envOk "r" stC5 (by decide)
  have h2 := c5_amended (⟨false, true, true, true⟩ : Env) "r" stC5 (by decide)
  have h3 := c5_amended envC5 "r" stC5 (by decide)
  exact ⟨(h.1 rfl rfl).1, (h.1 rfl rfl).2 lobA (by decide), h2.2.1 rfl,
    (h3.2.2 rfl rfl).1⟩

/-! Section: C6 -/

/-- A fresh durable message (age 0) in room `"r"`, sent by `"u1"`. -/
def rowFresh : MsgRow :=
  { id := freshId 0, chatLobbyId := "r", sender := "u1", message := "fresh",
    type := "text", seen := false, sentAt := 60000, fileUrl := none, senderUsername := none }

def stC6 : ChatState := mkState [] [rowFresh] [lobA] 1 60000

/-- A `forSelf` delete of that message, requested by `"u2"` (who is not
even its sender). -/
def reqC6 : DelReq :=
  { userId := "u2", messageId := freshId 0, chatLobbyId := "r", deleteType := "forSelf" }

/-- C6 counterexample: A delete with scope `forSelf` does NOT
merely hide the message for the requester: it removes the durable record
outright and broadcasts `messageDeleted` to the whole room — exactly
what the claim reserves for `forEveryone`. -/
theorem c6_counterexample :
    (deleteMessage envOk reqC6 stC6).2.2 = DelOutcome.deletedFromMongo
    ∧ findRow (deleteMessage envOk reqC6 stC6).1.messages (freshId 0) = none
    ∧ Ev.messageDeleted "r" (freshId 0) ∈ (deleteMessage envOk reqC6 stC6).2.1 := by
  refine ⟨by decide, by decide, by decide⟩

/-- C6 amended: In the durable path, **both** deletion scopes
remove the message record for all participants and broadcast a
`messageDeleted` event to the room; the scope only gates the 7-minute
window and the file-object deletion — under `forSelf` (or any scope
other than `forEveryone`) the stored file objects are untouched and no
window applies, but the record is removed all the same. -/
theorem c6_amended (env : Env) (req : DelReq) (s : ChatState) (m : MsgRow)
    (lby : ChatLobby)
    (hv : isValidObjectId req.messageId = true)
    (hb : (lookupList s.chatBuf req.chatLobbyId).find? (bufferMatch req) = none)
    (hm : findRow s.messages req.messageId = some m)
    (hw : windowBlocked req s.now m = false)
    (hl : findLobby s.chatLobbies m.chatLobbyId = some lby) :
    (deleteMessage env req s).2.2 = DelOutcome.deletedFromMongo
    ∧ (deleteMessage env req s).1.messages = eraseRow s.messages req.messageId
    ∧ (deleteMessage env req s).2.1
        = [Ev.lobbyUpdated m.chatLobbyId, Ev.messageDeleted m.chatLobbyId req.messageId]
    ∧ (req.deleteType ≠ "forEveryone" →
        (deleteMessage env req s).1.gcsObjects = s.gcsObjects) := by
  rw [deleteMessage_mongo_path env req s m lby hv hb hm hw hl]
  refine ⟨rfl, rfl, rfl, ?_⟩
  intro hne
  have hdt : (req.deleteType == "forEveryone") = false := beq_eq_false_iff_ne.mpr hne
  show (if m.type == "file" && m.fileUrl.isSome && req.deleteType == "forEveryone"
      && env.gcsOk then s.gcsObjects.erase (m.fileUrl.getD "") else s.gcsObjects) = s.gcsObjects
  simp [hdt]

/-- Witness for C6: the amended theorem at the concrete `forSelf` request. -/
theorem c6_witness :
    (deleteMessage envOk reqC6 stC6).2.2 = DelOutcome.deletedFromMongo
    ∧ (deleteMessage envOk reqC6 stC6).1.messages = eraseRow stC6.messages (freshId 0)
    ∧ (deleteMessage envOk reqC6 stC6).2.1
        = [Ev.lobbyUpdated "r", Ev.messageDeleted "r" (freshId 0)]
    ∧ (deleteMessage envOk reqC6 stC6).1.gcsObjects = stC6.gcsObjects := by
  have h := c6_amended envOk reqC6 stC6 rowFresh lobA (by decide) (by decide)
    (by decide) (by decide) (by decide)
  exact ⟨h.1, h.2.1, h.2.2.1, h.2.2.2 (by decide)⟩

/-! Section: C7 -/

/-- C7: Buffer-first delete reconciliation: (i) when the room's
buffer holds an entry whose id matches the target and whose sender is
the requester, the delete removes exactly that entry from the buffer and
never touches durable storage (terminal case); (ii) when no such entry
is buffered, the reconciler falls through to the durable lookup, and a
target absent there too yields `NotFound` with no state change and no
broadcast; (iii) conversely, a `NotFound` outcome can only arise when
the buffer held no matching entry **and** the durable lookup failed. -/
theorem c7_buffer_first (env : Env) (req : DelReq) (s : ChatState)
    (hv : isValidObjectId req.messageId = true) :
    (∀ e lby,
      (lookupList s.chatBuf req.chatLobbyId).find? (bufferMatch req) = some e →
      findLobby s.chatLobbies req.chatLobbyId = some lby →
      (deleteMessage env req s).2.2 = DelOutcome.deletedFromRedis
      ∧ lookupList (deleteMessage env req s).1.chatBuf req.chatLobbyId
          = (lookupList s.chatBuf req.chatLobbyId).erase e
      ∧ (deleteMessage env req s).1.messages = s.messages)
    ∧ ((lookupList s.chatBuf req.chatLobbyId).find? (bufferMatch req) = none →
      findRow s.messages req.messageId = none →
      deleteMessage env req s = (s, ([], DelOutcome.notFound)))
    ∧ ((deleteMessage env req s).2.2 = DelOutcome.notFound →
      (lookupList s.chatBuf req.chatLobbyId).find? (bufferMatch req) = none
      ∧ findRow s.messages req.messageId = none) := by
  refine ⟨?_, ?_, ?_⟩
  · intro e lby hb hl
    rw [deleteMessage_buffer_path env req s e lby hv hb hl]
    refine ⟨rfl, ?_, rfl⟩
    exact lookupList_setList_self s.chatBuf req.chatLobbyId
      ((lookupList s.chatBuf req.chatLobbyId).erase e)
  · intro hb hm
    exact deleteMessage_notFound_path env req s hv hb hm
  · intro h
    cases hb : (lookupList s.chatBuf req.chatLobbyId).find? (bufferMatch req) with
    | some e =>
      exfalso
      cases hl : findLobby s.chatLobbies req.chatLobbyId with
      | none =>
        rw [deleteMessage_buffer_err env req s e hv hb hl] at h
        simp at h
      | some lby =>
        rw [deleteMessage_buffer_path env req s e lby hv hb hl] at h
        simp at h
    | none =>
      cases hm : findRow s.messages req.messageId with
      | none => exact ⟨rfl, rfl⟩
      | some m =>
        exfalso
        cases hw : windowBlocked req s.now m with
        | true =>
          rw [deleteMessage_window_path env req s m hv hb hm hw] at h
          simp at h
        | false =>
          cases hl : findLobby s.chatLobbies m.chatLobbyId with
          | none =>
            rw [deleteMessage_mongo_err env req s m hv hb hm hw hl] at h
            simp at h
          | some lby =>
            rw [deleteMessage_mongo_path env req s m lby hv hb hm hw hl] at h
            simp at h

/-- A request whose target id exists nowhere (buffer or durable), and a
request that hits the buffered entry of `stC1`. -/
def reqC7 : DelReq :=
  { userId := "u1", messageId := freshId 5, chatLobbyId := "r", deleteType := "forSelf" }

def reqC7b : DelReq :=
  { userId := "u1", messageId := freshId 0, chatLobbyId := "r", deleteType := "forSelf" }

/-- Witness for C7: the theorem at concrete inputs — an id absent from
both stores yields `NotFound` with no change and no events, and a
buffer hit is terminal with the durable store untouched. -/
theorem c7_witness :
    deleteMessage envOk reqC7 stC2 = (stC2, ([], DelOutcome.notFound))
    ∧ (deleteMessage envOk reqC7b stC1).2.2 = DelOutcome.deletedFromRedis
    ∧ (deleteMessage envOk reqC7b stC1).1.messages = stC1.messages := by
  have h1 := (c7_buffer_first envOk reqC7 stC2 (by decide)).2.1 (by decide) (by decide)
  have h2 := (c7_buffer_first envOk reqC7b stC1 (by decide)).1 entA lobA
    (by decide) (by decide)
  exact ⟨h1, h2.1, h2.2.2⟩

/-! Section: C8 -/

theorem sendBufferAppend_lookup (u : ConnUser) (text : String) (s : ChatState) :
    lookupList (sendBufferAppend u text s).chatBuf u.room
      = lookupList s.chatBuf u.room ++ [sendEntry u text s] :=
  lookupList_setList_self s.chatBuf u.room
    (lookupList s.chatBuf u.room ++ [sendEntry u text s])

theorem flushChatBuffer_ok_buf_empty (env : Env) (room : Room) (t : ChatState)
    (h1 : env.insertManyOk = true) (h2 : env.flushLobbyOk = true)
    (hne : (lookupList t.chatBuf room).isEmpty = false) :
    lookupList (flushChatBuffer env room t).1.chatBuf room = [] := by
  rw [flushChatBuffer_ok env room t h1 h2 hne]
  exact lookupList_delKey_self t.chatBuf room

theorem flushChatBuffer_ok_insert_mem (env : Env) (room : Room) (t : ChatState)
    (h1 : env.insertManyOk = true) (h2 : env.flushLobbyOk = true)
    (hne : (lookupList t.chatBuf room).isEmpty = false) :
    Ev.durableInsertMany room (lookupList t.chatBuf room).length
      ∈ (flushChatBuffer env room t).2 := by
  rw [flushChatBuffer_ok env room t h1 h2 hne]
  simp [List.length_map]

/-- C8: After every accepted 1:1 send, the buffer is flushed exactly
when its post-append length has reached `BUFFER_BATCH_SIZE` (10): a send
that brings the buffer to the threshold triggers a flush (a bulk insert
of the whole buffer happens and the buffer is left empty), while a send
that leaves the buffer below the threshold performs no bulk insert at
all and leaves the appended entry in place. -/
theorem c8_threshold_flush (u : ConnUser) (text : String) (s : ChatState)
    (ht : isRealString text = true) :
    (BUFFER_BATCH_SIZE ≤ (lookupList s.chatBuf u.room).length + 1 →
      lookupList (createMessage envOk (some u) text s).1.chatBuf u.room = []
      ∧ Ev.durableInsertMany u.room ((lookupList s.chatBuf u.room).length + 1)
          ∈ (createMessage envOk (some u) text s).2)
    ∧ ((lookupList s.chatBuf u.room).length + 1 < BUFFER_BATCH_SIZE →
      lookupList (createMessage envOk (some u) text s).1.chatBuf u.room
        = lookupList s.chatBuf u.room ++ [sendEntry u text s]
      ∧ ∀ (room : Room) (k : Nat),
          Ev.durableInsertMany room k ∉ (createMessage envOk (some u) text s).2) := by
  have hbuf : lookupList (sendLobbyStep envOk u.room (freshId s.nextId) u.userId text
        s.now (sendBufferAppend u text s)).1.chatBuf u.room
      = lookupList s.chatBuf u.room ++ [sendEntry u text s] := by
    rw [sendLobbyStep_chatBuf, sendBufferAppend_lookup]
  have hne : (lookupList (sendLobbyStep envOk u.room (freshId s.nextId) u.userId text
        s.now (sendBufferAppend u text s)).1.chatBuf u.room).isEmpty = false := by
    rw [hbuf]
    cases lookupList s.chatBuf u.room <;> rfl
  constructor
  · intro hthr
    simp only [createMessage, ht, Bool.not_true, Bool.false_eq_true, if_false]
    rw [hbuf]
    simp only [List.length_append, List.length_singleton]
    rw [if_pos hthr]
    constructor
    · exact flushChatBuffer_ok_buf_empty envOk u.room _ rfl rfl hne
    · have hmem := flushChatBuffer_ok_insert_mem envOk u.room
        (sendLobbyStep envOk u.room (freshId s.nextId) u.userId text s.now
          (sendBufferAppend u text s)).1 rfl rfl hne
      rw [hbuf] at hmem
      simp only [List.length_append, List.length_singleton] at hmem
      exact List.mem_append.mpr (Or.inr hmem)
  · intro hlt
    have hcond : ¬ (BUFFER_BATCH_SIZE ≤ (lookupList s.chatBuf u.room).length + 1) := by
      omega
    simp only [createMessage, ht, Bool.not_true, Bool.false_eq_true, if_false]
    rw [hbuf]
    simp only [List.length_append, List.length_singleton]
    rw [if_neg hcond]
    refine ⟨hbuf, ?_⟩
    intro room k hk
    rcases List.mem_append.mp hk with hk1 | hk2
    · rcases List.mem_append.mp hk1 with hk0 | hkev
      · simp at hk0
      · rcases sendLobbyStep_events envOk u.room (freshId s.nextId) u.userId text s.now
            (sendBufferAppend u text s) with h | h <;> rw [h] at hkev <;> simp at hkev
    · rcases notifyEvents_shape _ u.room u.userId _ hk2 with ⟨p, hp⟩
      simp at hp

/-- The connected user and a 9-message buffer, one send away from the
threshold. -/
def uA : ConnUser := { userId := "u1", name := "Alice", room := "r" }

def nineEntries : List BufEntry :=
  (List.range 9).map
    (fun i => { id := freshId i, senderId := "u1", senderName := "Alice",
                text := "m", timestamp := 0 })

def stC8 : ChatState := mkState [("r", nineEntries)] [] [lobA] 9 0

/-- Witness for C8: the tenth send flushes (buffer ends empty and a bulk
insert of 10 documents happens); a send into an empty buffer does not
flush and leaves exactly the appended entry. -/
theorem c8_witness :
    (lookupList (createMessage envOk (some uA) "hello" stC8).1.chatBuf "r" = []
      ∧ Ev.durableInsertMany "r" 10 ∈ (createMessage envOk (some uA) "hello" stC8).2)
    ∧ lookupList (createMessage envOk (some uA) "hi" stC2).1.chatBuf "r"
        = [sendEntry uA "hi" stC2] := by
  have h1 := (c8_threshold_flush uA "hello" stC8 (by decide)).1 (by decide)
  have h2 := (c8_threshold_flush uA "hi" stC2 (by decide)).2 (by decide)
  exact ⟨h1, h2.1⟩

/-! Section: C9 -/

/-- C9: Broadcast-before-durability: in every accepted 1:1 send the
event trace begins with the Redis push (volatile, not a durable write)
immediately followed by the `newMessage` room broadcast — every durable
step (lobby write, bulk insert, notification) can only occur in the
remainder of the trace, after the broadcast.  And a flush emits no
broadcast whatsoever: every event of `flushChatBuffer` is a durable
write, never a socket emit. -/
theorem c9_broadcast_before_durable (env : Env) (u : ConnUser) (text : String)
    (s : ChatState) (ht : isRealString text = true) :
    (∃ rest, (createMessage env (some u) text s).2
        = Ev.redisPush u.room (freshId s.nextId)
          :: Ev.newMessage u.room (freshId s.nextId) :: rest)
    ∧ Ev.isDurable (Ev.redisPush u.room (freshId s.nextId)) = false
    ∧ Ev.isBroadcast (Ev.newMessage u.room (freshId s.nextId)) = true
    ∧ ∀ (env2 : Env) (room : Room) (s2 : ChatState),
        ∀ e ∈ (flushChatBuffer env2 room s2).2, Ev.isBroadcast e = false := by
  refine ⟨?_, rfl, rfl, fun env2 room s2 => flushChatBuffer_no_broadcast env2 room s2⟩
  simp only [createMessage, ht, Bool.not_true, Bool.false_eq_true, if_false]
  split
  · exact ⟨_, rfl⟩
  · exact ⟨_, rfl⟩

/-- Witness for C9: the trace shape at a concrete send. -/
theorem c9_witness :
    ∃ rest, (createMessage envOk (some uA) "hey" stC2).2
      = Ev.redisPush "r" (freshId 2) :: Ev.newMessage "r" (freshId 2) :: rest :=
  (c9_broadcast_before_durable envOk uA "hey" stC2 (by decide)).1

/-! Section: C10 -/

/-- C10: Every accepted 1:1 send, besides appending to the volatile
buffer, pushes the full message record — carrying the id assigned at
send time — into the durable lobby document's `messages` array as part
of the send path itself: the trace shows the durable lobby write
immediately after the broadcast and before any flush insert, and the
resulting lobby contains the record.  Moreover, a buffer-hit delete
(which removes the entry from the Redis buffer) never touches the
lobby's `messages` array, so this durable copy survives. -/
theorem c10_send_persists_to_lobby (u : ConnUser) (text : String) (s : ChatState)
    (l : ChatLobby)
    (ht : isRealString text = true)
    (hl : findLobby s.chatLobbies u.room = some l) :
    (∃ l2, findLobby (createMessage envOk (some u) text s).1.chatLobbies u.room = some l2
      ∧ ({ id := freshId s.nextId, sender := u.userId, message := text,
           sentAt := s.now } : LobbyMsg) ∈ l2.messages)
    ∧ (∃ rest, (createMessage envOk (some u) text s).2
        = [Ev.redisPush u.room (freshId s.nextId), Ev.newMessage u.room (freshId s.nextId),
           Ev.durableLobbyWrite u.room, Ev.lobbyUpdated u.room] ++ rest)
    ∧ ∀ (env2 : Env) (req : DelReq) (s2 : ChatState) (e : BufEntry) (lby : ChatLobby),
        isValidObjectId req.messageId = true →
        (lookupList s2.chatBuf req.chatLobbyId).find? (bufferMatch req) = some e →
        findLobby s2.chatLobbies req.chatLobbyId = some lby →
        (findLobby (deleteMessage env2 req s2).1.chatLobbies req.chatLobbyId).map
            ChatLobby.messages
          = (findLobby s2.chatLobbies req.chatLobbyId).map ChatLobby.messages := by
  have hs1 : findLobby (sendBufferAppend u text s).chatLobbies u.room = some l := hl
  have hr2 := sendLobbyStep_ok envOk u.room (freshId s.nextId) u.userId text s.now
    (sendBufferAppend u text s) l rfl hs1
  have hfind : findLobby (updateFirstLobby (sendBufferAppend u text s).chatLobbies u.room
        (lobbyPushUpdate (freshId s.nextId) u.userId text s.now)) u.room
      = some (lobbyPushUpdate (freshId s.nextId) u.userId text s.now l) := by
    rw [findLobby_updateFirstLobby_self (sendBufferAppend u text s).chatLobbies u.room
        (lobbyPushUpdate (freshId s.nextId) u.userId text s.now) (fun x => rfl), hs1]
    rfl
  refine ⟨?_, ?_, ?_⟩
  · simp only [createMessage, ht, Bool.not_true, Bool.false_eq_true, if_false, hr2]
    split
    · rcases flushChatBuffer_chatLobbies envOk u.room _ with hfl | hfl
      · rw [hfl]
        try dsimp only
        refine ⟨_, hfind, ?_⟩
        simp [lobbyPushUpdate]
      · rw [hfl]
        try dsimp only
        rw [findLobby_updateFirstLobby_self _ u.room
            (fun x => { x with deletefor := [] }) (fun x => rfl), hfind]
        refine ⟨_, rfl, ?_⟩
        simp [lobbyPushUpdate]
    · refine ⟨_, hfind, ?_⟩
      simp [lobbyPushUpdate]
  · simp only [createMessage, ht, Bool.not_true, Bool.false_eq_true, if_false, hr2]
    split
    · exact ⟨_, rfl⟩
    · exact ⟨_, rfl⟩
  · intro env2 req s2 e lby hv hb hl2
    rw [deleteMessage_buffer_path env2 req s2 e lby hv hb hl2]
    show (findLobby (updateFirstLobby s2.chatLobbies req.chatLobbyId
        (lobbySetDeleted s2.now)) req.chatLobbyId).map ChatLobby.messages = _
    rw [findLobby_updateFirstLobby_self s2.chatLobbies req.chatLobbyId
        (lobbySetDeleted s2.now) (fun x => rfl), hl2]
    rfl

/-- Witness for C10: at a concrete send into `stC2`, the lobby document
ends up containing the record with the assigned id, and a buffer-hit
delete in `stC1` leaves the lobby's `messages` array untouched. -/
theorem c10_witness :
    (∃ l2, findLobby (createMessage envOk (some uA) "hola" stC2).1.chatLobbies "r"
        = some l2
      ∧ ({ id := freshId 2, sender := "u1", message := "hola", sentAt := 120000 }
          : LobbyMsg) ∈ l2.messages)
    ∧ (findLobby (deleteMessage envOk reqC7b stC1).1.chatLobbies "r").map
          ChatLobby.messages
        = (findLobby stC1.chatLobbies "r").map ChatLobby.messages := by
  have h := c10_send_persists_to_lobby uA "hola" stC2 lobC2 (by decide) (by decide)
  exact ⟨h.1, h.2.2 envOk reqC7b stC1 entA lobA (by decide) (by decide) (by decide)⟩

end Chat
